import Mathlib

/-!
Verification of the command-node execution engine of `shelltool.py`
(class `CLITool`): drainage of stdout/stderr into per-stream and combined
queues and buffers, buffer finalization, pipe composition, stdin feeding,
iteration over captured lines, lifecycle queries and termination.

Modelling conventions: byte strings are `List Nat`, one captured line
(chunk) is a `Chunk`; what the two reader threads discover while the
process runs is a schedule `List (StreamTag × Chunk)` in discovery order
(discovery is taken to be everything the process wrote); Python `None`
is `Option.none`; Python exceptions are `Except.error` carrying the
message.
-/

set_option autoImplicit false

namespace Shellify

/-- The enum `PipeType` of the source (lines 15-19). -/
inductive PipeType where
  | OUT
  | ERR
  | ALL
  | IN
  deriving DecidableEq, Repr

/-- Which OS stream a discovered chunk came from. -/
inductive StreamTag where
  | out
  | err
  deriving DecidableEq, Repr

/-- One captured line of bytes. -/
abbrev Chunk := List Nat

/-- The queues and accumulating buffers filled by the two reader threads. -/
structure DrainAcc where
  stdout_queue : List Chunk
  stderr_queue : List Chunk
  all_queue : List Chunk
  stdout_buffer : List Nat
  stderr_buffer : List Nat
  all_buffer : List Nat
  deriving DecidableEq, Repr

/-- All queues and buffers start empty (lines 37-44). -/
def DrainAcc.empty : DrainAcc := ⟨[], [], [], [], [], []⟩

/-- Effect of one discovered chunk, as in `_stdout_reader` (lines 96-100)
and `_stderr_reader` (lines 108-112): the chunk is put on the stream's own
queue, appended to its own buffer, put on the combined queue and appended
to the combined buffer. -/
def drainChunk (acc : DrainAcc) : StreamTag × Chunk → DrainAcc
  | (StreamTag.out, data) =>
      { acc with
        stdout_queue := acc.stdout_queue ++ [data]
        stdout_buffer := acc.stdout_buffer ++ data
        all_queue := acc.all_queue ++ [data]
        all_buffer := acc.all_buffer ++ data }
  | (StreamTag.err, data) =>
      { acc with
        stderr_queue := acc.stderr_queue ++ [data]
        stderr_buffer := acc.stderr_buffer ++ data
        all_queue := acc.all_queue ++ [data]
        all_buffer := acc.all_buffer ++ data }

/-- The reader threads run over the whole discovery schedule. -/
def drain (sched : List (StreamTag × Chunk)) : DrainAcc :=
  sched.foldl drainChunk DrainAcc.empty

/-- Bytes the process wrote to stdout, in schedule order. -/
def outBytes (sched : List (StreamTag × Chunk)) : List Nat :=
  (sched.filterMap fun p => if p.1 = StreamTag.out then some p.2 else none).flatten

/-- Bytes the process wrote to stderr, in schedule order. -/
def errBytes (sched : List (StreamTag × Chunk)) : List Nat :=
  (sched.filterMap fun p => if p.1 = StreamTag.err then some p.2 else none).flatten

/-- All bytes in discovery order, both streams interleaved. -/
def allBytes (sched : List (StreamTag × Chunk)) : List Nat :=
  (sched.map Prod.snd).flatten

/-- Model of Python `bytes.splitlines` on byte lists: lines are cut at
LF (10), CR (13) and CRLF, and the terminators are dropped. -/
def bsplitlinesAux : List Nat → List Nat → List (List Nat)
  | [], acc => if acc = [] then [] else [acc.reverse]
  | 13 :: 10 :: rest, acc => acc.reverse :: bsplitlinesAux rest []
  | 13 :: rest, acc => acc.reverse :: bsplitlinesAux rest []
  | 10 :: rest, acc => acc.reverse :: bsplitlinesAux rest []
  | c :: rest, acc => bsplitlinesAux rest (c :: acc)

/-- `pipe_in.splitlines()` on line 79 of the source. -/
def bsplitlines (l : List Nat) : List (List Nat) := bsplitlinesAux l []

/-- The guard of lines 84 and 86: with the one-shot capture absent
(`communicate` on line 81 is commented out, so `_stdout`/`_stderr` are
`None` on a first run) the conditional expression yields `True`. -/
def richerGuard (cap : Option (List Nat)) (buf : List Nat) : Bool :=
  match cap with
  | none => true
  | some b => decide (b.length < buf.length)

/-- The finalized `_stdout`, `_stderr`, `_all` fields after `_run`. -/
structure Finalized where
  stdoutF : Option (List Nat)
  stderrF : Option (List Nat)
  allF : Option (List Nat)
  deriving DecidableEq, Repr

/-- Lines 84-88 of `CLITool._run`, exactly as written: the stdout branch
assigns `_stdout`; the stderr branch (lines 86-87) tests the stderr
buffers but ALSO assigns `_stdout` — `_stderr` is never assigned;
`_all` is always the drainer-accumulated combined buffer. -/
def finalizeBuffers (cap_stdout cap_stderr : Option (List Nat)) (acc : DrainAcc) : Finalized :=
  let s1 : Option (List Nat) :=
    if richerGuard cap_stdout acc.stdout_buffer then some acc.stdout_buffer else cap_stdout
  let s2 : Option (List Nat) :=
    if richerGuard cap_stderr acc.stderr_buffer then some acc.stdout_buffer else s1
  { stdoutF := s2, stderrF := cap_stderr, allF := some acc.all_buffer }

mutual
/-- The `pipe_in` field of `CLITool` (line 27): Python `None`, a bytes
payload (set by `__ror__`, line 162), or another `CLITool`. -/
inductive PipeSrc where
  | noneSrc : PipeSrc
  | bytesSrc : List Nat → PipeSrc
  | toolSrc : Node → PipeSrc

/-- The pre-run state of one `CLITool` that `_run` consults, together
with the behaviour of the OS process its command line spawns (the chunks
the reader threads discover, and the exit status). `cap_stdout`,
`cap_stderr`, `cap_all` are the current `_stdout`, `_stderr`, `_all`
fields (all `None` on a fresh node). -/
inductive Node where
  | mk : (name : String) → (args : List String) → (pipe_in : PipeSrc) →
         (pipe_in_type : PipeType) → (has_run : Bool) →
         (cap_stdout : Option (List Nat)) → (cap_stderr : Option (List Nat)) →
         (cap_all : Option (List Nat)) →
         (sched : List (StreamTag × Chunk)) → (exitCode : Int) → Node
end

def Node.name : Node → String
  | Node.mk nm _ _ _ _ _ _ _ _ _ => nm

def Node.args : Node → List String
  | Node.mk _ ags _ _ _ _ _ _ _ _ => ags

def Node.pipe_in : Node → PipeSrc
  | Node.mk _ _ p _ _ _ _ _ _ _ => p

def Node.pipe_in_type : Node → PipeType
  | Node.mk _ _ _ t _ _ _ _ _ _ => t

def Node.has_run : Node → Bool
  | Node.mk _ _ _ _ h _ _ _ _ _ => h

def Node.cap_stdout : Node → Option (List Nat)
  | Node.mk _ _ _ _ _ o _ _ _ _ => o

def Node.cap_stderr : Node → Option (List Nat)
  | Node.mk _ _ _ _ _ _ e _ _ _ => e

def Node.cap_all : Node → Option (List Nat)
  | Node.mk _ _ _ _ _ _ _ a _ _ => a

def Node.sched : Node → List (StreamTag × Chunk)
  | Node.mk _ _ _ _ _ _ _ _ s _ => s

def Node.exitCode : Node → Int
  | Node.mk _ _ _ _ _ _ _ _ _ c => c

/-- Lines 64-74: `pipe_in` starts as the empty bytes and, for a tool
source, is replaced by the property value selected by `pipe_in_type`
(`.stderr` for ERR, `.stdout` for OUT, `.all` for ALL); a selector
matching none of the three branches leaves the initial empty bytes. -/
def selectProp (t : PipeType) (pstdout pstderr pall : Option (List Nat)) :
    Option (List Nat) :=
  match t with
  | PipeType.ERR => pstderr
  | PipeType.OUT => pstdout
  | PipeType.ALL => pall
  | PipeType.IN => some []

/-- The observable outcome of a synchronous `run()` of a node. -/
structure RunOutcome where
  stdoutF : Option (List Nat)
  stderrF : Option (List Nat)
  allF : Option (List Nat)
  stdout_queue : List Chunk
  stderr_queue : List Chunk
  all_queue : List Chunk
  stdinWrites : List Chunk
  stdinClosed : Bool
  spawns : Nat
  exitCode : Int
  deriving DecidableEq, Repr

/-- Synchronous `run()` (lines 128-139) driving `_run` (lines 56-91):
spawn the process (counted in `spawns`), start the readers (they discover
`sched`), resolve the stdin payload — a tool source that has not run is
run recursively first (line 67-68), one that has run is read through its
properties directly; write `pipe_in.splitlines()` to stdin via
`writelines` when the payload is not `None` (lines 78-79, each written
chunk exactly as `splitlines` returns it, nothing is ever closed:
the source has no call to `stdin.close`); join the readers and finalize
the buffers (lines 82-88, including the line-87 assignment to
`_stdout`). -/
def runNode : Node → RunOutcome
  | Node.mk _ _ pin ptype _ cap_out cap_err _ sched exitCode =>
    let acc := drain sched
    let resolved : Option (List Nat) × Nat :=
      match pin with
      | PipeSrc.noneSrc => (none, 0)
      | PipeSrc.bytesSrc b => (some b, 0)
      | PipeSrc.toolSrc src =>
        if src.has_run then
          (selectProp ptype src.cap_stdout src.cap_stderr src.cap_all, 0)
        else
          let srcRes := runNode src
          (selectProp ptype srcRes.stdoutF srcRes.stderrF srcRes.allF, srcRes.spawns)
    let writes : List Chunk :=
      match resolved.1 with
      | none => []
      | some b => bsplitlines b
    let fin := finalizeBuffers cap_out cap_err acc
    { stdoutF := fin.stdoutF
      stderrF := fin.stderrF
      allF := fin.allF
      stdout_queue := acc.stdout_queue
      stderr_queue := acc.stderr_queue
      all_queue := acc.all_queue
      stdinWrites := writes
      stdinClosed := false
      spawns := 1 + resolved.2
      exitCode := exitCode }

/-- The lifecycle-level state of one node: the run flag, how many OS
processes have been spawned for it, and whether its two reader threads
have been started (a Python `Thread` can be started only once). -/
structure LifeState where
  has_run : Bool
  spawnCount : Nat
  stdout_thread_started : Bool
  stderr_thread_started : Bool
  deriving DecidableEq, Repr

/-- A freshly constructed node (lines 23-49). -/
def LifeState.fresh : LifeState := ⟨false, 0, false, false⟩

/-- Outcome of a call at the lifecycle level: the state after the call
and the exception message, if one was raised. -/
structure LifeResult where
  state : LifeState
  error : Option String
  deriving DecidableEq, Repr

/-- Lines 58-62 of `_run` at the lifecycle level: `subp.Popen` spawns a
new OS process unconditionally, then `_stdout_thread.start()` and
`_stderr_thread.start()` are called; the host raises a RuntimeError on a
second start of the same thread, after the process was already spawned. -/
def lifeRunOnce (s : LifeState) : LifeResult :=
  let s := { s with spawnCount := s.spawnCount + 1 }
  if s.stdout_thread_started then
    { state := s, error := some "threads can only be started once" }
  else
    let s := { s with stdout_thread_started := true }
    if s.stderr_thread_started then
      { state := s, error := some "threads can only be started once" }
    else
      { state := { s with stderr_thread_started := true }, error := none }

/-- Lines 128-139: `run()` sets `has_run = True` and calls `_run` with no
guard on `has_run` (the synchronous branch; the concurrent branch starts
the same `_run` on the execution thread). -/
def lifeRunCall (s : LifeState) : LifeResult :=
  lifeRunOnce { s with has_run := true }

/-- Replace the `pipe_in` field (assignment `other.pipe_in = self`). -/
def Node.setPipeSrc : Node → PipeSrc → Node
  | Node.mk nm ags _ pt hr co ce ca sch ec, p =>
      Node.mk nm ags p pt hr co ce ca sch ec

/-- Replace the `pipe_in_type` field (assignment `other.pipe_in_type = ...`). -/
def Node.setPipeType : Node → PipeType → Node
  | Node.mk nm ags p _ hr co ce ca sch ec, t =>
      Node.mk nm ags p t hr co ce ca sch ec

/-- The right-hand operand of a pipe operator: either another `CLITool`,
or any other Python value (carried by its textual form). -/
inductive PyOperand where
  | tool : Node → PyOperand
  | other : String → PyOperand

/-- `__or__` (lines 152-158): on a tool operand, set its `pipe_in` to the
left node and return it — `pipe_in_type` is NOT assigned; otherwise raise
a TypeError. -/
def orOp (self : Node) (other : PyOperand) : Except String Node :=
  match other with
  | PyOperand.tool t => Except.ok (t.setPipeSrc (PipeSrc.toolSrc self))
  | PyOperand.other _ =>
      Except.error "Cant stdout pipe Shell command into type other than another shell command"

/-- `__matmul__` (lines 165-172): on a tool operand, set its `pipe_in` to
the left node and its `pipe_in_type` to ERR, and return it; otherwise
raise a TypeError. -/
def matmulOp (self : Node) (other : PyOperand) : Except String Node :=
  match other with
  | PyOperand.tool t =>
      Except.ok ((t.setPipeSrc (PipeSrc.toolSrc self)).setPipeType PipeType.ERR)
  | PyOperand.other _ =>
      Except.error "Cant stderr pipe Shell command into type other than another shell command"

/-- `__mod__` (lines 174-181): on a tool operand, set its `pipe_in` to
the left node and its `pipe_in_type` to ALL, and return it; otherwise
raise a TypeError. -/
def modOp (self : Node) (other : PyOperand) : Except String Node :=
  match other with
  | PyOperand.tool t =>
      Except.ok ((t.setPipeSrc (PipeSrc.toolSrc self)).setPipeType PipeType.ALL)
  | PyOperand.other _ =>
      Except.error "Cant stderr pipe Shell command into type other than another shell command"

/-- The `process` field as the lifecycle queries see it: absent before a
spawn, otherwise a pid plus the `poll()` result (`None` while the process
runs, the exit status once it has exited). -/
structure ProcSt where
  pid : Nat
  pollResult : Option Int
  deriving DecidableEq, Repr

/-- A node as seen by `running`, `return_code`, `pid` and `kill`. -/
structure ProcNode where
  process : Option ProcSt
  deriving DecidableEq, Repr

/-- The `running` property (lines 216-219):
`self.process.poll() == None if self.process != None else False`. -/
def runningQ (n : ProcNode) : Bool :=
  match n.process with
  | some p => decide (p.pollResult = none)
  | none => false

/-- The `pid` property (lines 234-238). -/
def pidQ (n : ProcNode) : Option Nat := n.process.map ProcSt.pid

/-- How the f-string on line 188 renders `self.pid`. -/
def pidRepr (n : ProcNode) : String :=
  match pidQ n with
  | none => "None"
  | some p => toString p

/-- The `return_code` property (lines 227-232). -/
def return_code (n : ProcNode) : Option Int :=
  if runningQ n = false ∧ n.process ≠ none then
    match n.process with
    | some p => p.pollResult
    | none => none
  else none

/-- Observable effect of `kill()`: the `(pid, signal)` pairs delivered
via `os.kill`, and the exception message if one was raised. -/
structure KillEffect where
  signalsSent : List (Nat × Nat)
  error : Option String
  deriving DecidableEq, Repr

/-- The numeric value of `signal.SIGTERM` on the POSIX hosts the source
targets. -/
def SIGTERM : Nat := 15

/-- `kill()` (lines 183-189): if `running`, deliver SIGTERM to the pid;
otherwise raise the RuntimeError naming the pid. -/
def killCall (n : ProcNode) : KillEffect :=
  if runningQ n then
    match n.process with
    | some p => { signalsSent := [(p.pid, SIGTERM)], error := none }
    | none => { signalsSent := [], error := none }
  else
    { signalsSent := []
      error := some ("Tried to kill process that doesnt exist with pid:(" ++ pidRepr n ++ ").") }

/-- The two queues `__next__` and `next_stream_line` consult. -/
structure IterQueues where
  stdout_queue : List Chunk
  stderr_queue : List Chunk
  deriving DecidableEq, Repr

/-- `next_stream_line` (lines 203-214): pop the head of each non-empty
queue (absent otherwise) and return the pair with the remaining queues. -/
def next_stream_line (q : IterQueues) : (Option Chunk × Option Chunk) × IterQueues :=
  let so :=
    match q.stdout_queue with
    | [] => ((none : Option Chunk), q)
    | x :: xs => (some x, { q with stdout_queue := xs })
  let se :=
    match so.2.stderr_queue with
    | [] => ((none : Option Chunk), so.2)
    | y :: ys => (some y, { so.2 with stderr_queue := ys })
  ((so.1, se.1), se.2)

/-- `__next__` (lines 195-200): StopIteration (modelled as `none`) exactly
when both queues are empty at the check; otherwise `next_stream_line`. -/
def nextStep (q : IterQueues) : Option ((Option Chunk × Option Chunk) × IterQueues) :=
  if q.stdout_queue.isEmpty && q.stderr_queue.isEmpty then none
  else some (next_stream_line q)

/-- `__call__` (lines 51-53) on character-list strings:
`self.args = [self.name, *[str(arg) for arg in args]]`; the `str`
coercions of the arguments are taken as given. -/
def callArgs (name : List Char) (coerced : List (List Char)) : List (List Char) :=
  name :: coerced

/-- `" ".join(self.args)` (line 58) on character-list strings: the single
command string handed to `subp.Popen`, tokens joined by single spaces
with no quoting or escaping. -/
def joinSpaces : List (List Char) → List Char
  | [] => []
  | [t] => t
  | t :: rest => t ++ ' ' :: joinSpaces rest

/-- Line 58-59 passes `shell=True` to `subp.Popen`. -/
def popenShellFlag : Bool := true

/-- Field splitting the shell applies to an unquoted command string: a
maximal run of spaces is one delimiter, and leading or trailing runs
produce no word, so every emitted word is nonempty. `acc` is the word
accumulating in reverse. -/
def shellWordsAux : List Char → List Char → List (List Char)
  | [], acc => if acc = [] then [] else [acc.reverse]
  | c :: rest, acc =>
      if c = ' ' then
        if acc = [] then shellWordsAux rest []
        else acc.reverse :: shellWordsAux rest []
      else shellWordsAux rest (c :: acc)

/-- The shell words of a command string. -/
def shellWords (s : List Char) : List (List Char) := shellWordsAux s []

/-- A node with no pipe source whose process writes one chunk to stdout
and one to stderr. -/
def nodeC1 : Node :=
  Node.mk "prog" ["prog"] PipeSrc.noneSrc PipeType.OUT false none none none
    [(StreamTag.out, [111]), (StreamTag.err, [101])] 0

/-- An upstream node whose process writes the two stdout lines "a" and
"b", each LF-terminated. -/
def nodeC2A : Node :=
  Node.mk "echo" ["echo", "a", "b"] PipeSrc.noneSrc PipeType.OUT false none none none
    [(StreamTag.out, [97, 10]), (StreamTag.out, [98, 10])] 0

/-- The downstream node of the pipeline, stdout-piped from `nodeC2A`. -/
def nodeC2B : Node :=
  Node.mk "cat" ["cat"] (PipeSrc.toolSrc nodeC2A) PipeType.OUT false none none none [] 0

/-- A node with no pipe source whose process writes "hi" to stdout. -/
def nodeC4 : Node :=
  Node.mk "printf" ["printf", "hi"] PipeSrc.noneSrc PipeType.OUT false none none none
    [(StreamTag.out, [104, 105])] 0

/-- A fresh left-hand node for composition. -/
def nodeC5L : Node :=
  Node.mk "a" ["a"] PipeSrc.noneSrc PipeType.OUT false none none none [] 0

/-- A right-hand node whose selector was previously set to ERR by an
earlier stderr composition. -/
def nodeC5R : Node :=
  Node.mk "b" ["b"] PipeSrc.noneSrc PipeType.ERR false none none none [] 0

end Shellify

namespace Shellify

theorem one_le_shellWordsAux_of_acc (s : List Char) :
    ∀ acc, acc ≠ [] → 1 ≤ (shellWordsAux s acc).length := by
  induction s with
  | nil => intro acc h; simp [shellWordsAux, h]
  | cons c rest ih =>
      intro acc h
      by_cases hc : c = ' '
      · subst hc
        simp [shellWordsAux, h]
      · simpa [shellWordsAux, hc] using ih (c :: acc) (by simp)

theorem one_le_shellWords_of_nonblank (s : List Char) :
    ∀ acc, (∃ c ∈ s, c ≠ ' ') → 1 ≤ (shellWordsAux s acc).length := by
  induction s with
  | nil =>
      intro acc h
      obtain ⟨c, hc, _⟩ := h
      simp at hc
  | cons c rest ih =>
      intro acc h
      by_cases hc : c = ' '
      · subst hc
        have hrest : ∃ d ∈ rest, d ≠ ' ' := by
          obtain ⟨d, hd, hne⟩ := h
          rcases List.mem_cons.mp hd with h1 | h1
          · exact absurd h1 hne
          · exact ⟨d, h1, hne⟩
        by_cases ha : acc = []
        · simpa [shellWordsAux, ha] using ih [] hrest
        · simp [shellWordsAux, ha]
      · simpa [shellWordsAux, hc] using
          one_le_shellWordsAux_of_acc rest (c :: acc) (by simp)

theorem shellWordsAux_append_space (xs ys : List Char) :
    ∀ acc, shellWordsAux (xs ++ ' ' :: ys) acc
      = shellWordsAux xs acc ++ shellWords ys := by
  induction xs with
  | nil =>
      intro acc
      by_cases ha : acc = []
      · simp [shellWordsAux, shellWords, ha]
      · simp [shellWordsAux, shellWords, ha]
  | cons c rest ih =>
      intro acc
      by_cases hc : c = ' '
      · subst hc
        by_cases ha : acc = []
        · simp [shellWordsAux, ha, ih]
        · simp [shellWordsAux, ha, ih]
      · simp [shellWordsAux, hc, ih]

theorem shellWords_joinSpaces (ts : List (List Char)) :
    shellWords (joinSpaces ts) = (ts.map shellWords).flatten := by
  induction ts with
  | nil => simp [joinSpaces, shellWords, shellWordsAux]
  | cons t rest ih =>
      cases rest with
      | nil => simp [joinSpaces]
      | cons r rs =>
          have step : joinSpaces (t :: r :: rs) = t ++ ' ' :: joinSpaces (r :: rs) := rfl
          rw [step]
          calc shellWords (t ++ ' ' :: joinSpaces (r :: rs))
              = shellWords t ++ shellWords (joinSpaces (r :: rs)) :=
                shellWordsAux_append_space t (joinSpaces (r :: rs)) []
            _ = shellWords t ++ ((r :: rs).map shellWords).flatten := by rw [ih]
            _ = ((t :: r :: rs).map shellWords).flatten := by simp

theorem two_le_shellWords_of_split (xs ys : List Char)
    (hx : ∃ c ∈ xs, c ≠ ' ') (hy : ∃ c ∈ ys, c ≠ ' ') :
    2 ≤ (shellWords (xs ++ ' ' :: ys)).length := by
  have h : shellWords (xs ++ ' ' :: ys) = shellWordsAux xs [] ++ shellWordsAux ys [] :=
    shellWordsAux_append_space xs ys []
  have h1 := one_le_shellWords_of_nonblank xs [] hx
  have h2 := one_le_shellWords_of_nonblank ys [] hy
  rw [h, List.length_append]
  omega

/-- Claim C1 — the code is wrong at this input: for the single node
`nodeC1` with no pipe source, after a synchronous run `all` does equal
the interleaved concatenation and `stdout` the stdout subset, but the
finalized stderr is Python `None`, not the stderr subset: line 87 of the
source assigns `_stdout` inside the stderr branch, so `_stderr` is never
assigned. -/
theorem C1_finalize_drops_stderr :
    outBytes nodeC1.sched = [111] ∧
    errBytes nodeC1.sched = [101] ∧
    allBytes nodeC1.sched = [111, 101] ∧
    (runNode nodeC1).stdoutF = some [111] ∧
    (runNode nodeC1).allF = some [111, 101] ∧
    (runNode nodeC1).stderrF = none ∧
    (runNode nodeC1).stderrF ≠ some (errBytes nodeC1.sched) := by decide

/-- Claim C2 — the code is wrong at this input: in the two-node stdout
pipeline `nodeC2A` to `nodeC2B`, the upstream finalized stdout is the
four bytes of "a\n" and "b\n", but the downstream stdin receives the
writes produced by `splitlines` — the terminator-free chunks "a" and
"b" — and `writelines` adds nothing back, so the LF bytes are lost. -/
theorem C2_pipe_drops_line_terminators :
    (runNode nodeC2A).stdoutF = some [97, 10, 98, 10] ∧
    (runNode nodeC2B).spawns = 2 ∧
    (runNode nodeC2B).stdinWrites = [[97], [98]] ∧
    (runNode nodeC2B).stdinWrites.flatten = [97, 98] ∧
    ([97, 98] : List Nat) ≠ [97, 10, 98, 10] := by decide

/-- Claim C3 counterexample: a second direct call to `run()` is not a
no-op — it spawns a second OS process (and only then raises the host's
thread-restart error): after two `run()` calls the spawn count is 2. -/
theorem C3_second_run_spawns_again :
    (lifeRunCall LifeState.fresh).state.spawnCount = 1 ∧
    (lifeRunCall LifeState.fresh).error = none ∧
    (lifeRunCall (lifeRunCall LifeState.fresh).state).state.spawnCount = 2 ∧
    (lifeRunCall (lifeRunCall LifeState.fresh).state).error
      = some "threads can only be started once" := by decide

/-- Claim C3 (amended): `run()` itself has no at-most-once guard — a
second direct call spawns a new process and then fails on the thread
restart; the guard exists only in pipe resolution: `_run` of a node whose
tool pipe source has `has_run = true` spawns exactly one process (the
source is not re-run), while a source with `has_run = false` is run,
adding its own spawns. -/
theorem C3_amended_run_guard
    (nm : String) (ags : List String) (pt : PipeType) (hr : Bool)
    (co ce ca : Option (List Nat)) (sch : List (StreamTag × Chunk)) (ec : Int)
    (snm : String) (sags : List String) (spin : PipeSrc) (spt : PipeType)
    (sco sce sca : Option (List Nat)) (ssch : List (StreamTag × Chunk)) (sec : Int) :
    (runNode (Node.mk nm ags
        (PipeSrc.toolSrc (Node.mk snm sags spin spt true sco sce sca ssch sec))
        pt hr co ce ca sch ec)).spawns = 1 ∧
    (runNode (Node.mk nm ags
        (PipeSrc.toolSrc (Node.mk snm sags spin spt false sco sce sca ssch sec))
        pt hr co ce ca sch ec)).spawns
      = 1 + (runNode (Node.mk snm sags spin spt false sco sce sca ssch sec)).spawns ∧
    (lifeRunCall (lifeRunCall LifeState.fresh).state).state.spawnCount = 2 := by
  refine ⟨?_, ?_, by decide⟩ <;>
    simp [runNode, Node.has_run]

/-- Claim C4 counterexample: starting the concrete node `nodeC4`, which
has no pipe source, does not close the spawned process's stdin — the
source contains no `stdin.close()` call at all — even though no data is
written to it. -/
theorem C4_stdin_not_closed :
    (runNode nodeC4).stdinWrites = [] ∧
    (runNode nodeC4).stdinClosed = false := by decide

/-- Claim C4 (amended): for every node whose pipe source is absent,
running the node writes no data to the spawned process's stdin, and
stdin is left open — it is never explicitly closed. -/
theorem C4_amended_no_write_no_close
    (nm : String) (ags : List String) (pt : PipeType) (hr : Bool)
    (co ce ca : Option (List Nat)) (sch : List (StreamTag × Chunk)) (ec : Int) :
    (runNode (Node.mk nm ags PipeSrc.noneSrc pt hr co ce ca sch ec)).stdinWrites = [] ∧
    (runNode (Node.mk nm ags PipeSrc.noneSrc pt hr co ce ca sch ec)).stdinClosed = false := by
  simp [runNode]

/-- Claim C5 counterexample: the stdout pipe operator does not set the
right-hand node's stream selector — composing into `nodeC5R`, whose
selector was previously ERR, leaves the selector ERR, not the stdout
selector the claim requires. -/
theorem C5_or_selector_not_set :
    orOp nodeC5L (PyOperand.tool nodeC5R)
      = Except.ok (Node.mk "b" ["b"] (PipeSrc.toolSrc nodeC5L) PipeType.ERR
          false none none none [] 0) ∧
    PipeType.ERR ≠ PipeType.OUT := ⟨rfl, by decide⟩

/-- Claim C5 (amended): each of the three pipe operators raises its
TypeError exactly when the right-hand side is not a command node and
otherwise sets the right-hand node's pipe source to the left node and
returns the right-hand node (its name and arguments intact); the stderr
and combined operators also set the selector to ERR and ALL respectively,
but the stdout operator leaves the right-hand node's selector unchanged. -/
theorem C5_amended_ops (self t : Node) (v : String) :
    Except.map Node.pipe_in (orOp self (PyOperand.tool t))
      = Except.ok (PipeSrc.toolSrc self) ∧
    Except.map Node.pipe_in_type (orOp self (PyOperand.tool t))
      = Except.ok t.pipe_in_type ∧
    Except.map Node.name (orOp self (PyOperand.tool t)) = Except.ok t.name ∧
    Except.map Node.args (orOp self (PyOperand.tool t)) = Except.ok t.args ∧
    Except.map Node.pipe_in (matmulOp self (PyOperand.tool t))
      = Except.ok (PipeSrc.toolSrc self) ∧
    Except.map Node.pipe_in_type (matmulOp self (PyOperand.tool t))
      = Except.ok PipeType.ERR ∧
    Except.map Node.name (matmulOp self (PyOperand.tool t)) = Except.ok t.name ∧
    Except.map Node.pipe_in (modOp self (PyOperand.tool t))
      = Except.ok (PipeSrc.toolSrc self) ∧
    Except.map Node.pipe_in_type (modOp self (PyOperand.tool t))
      = Except.ok PipeType.ALL ∧
    Except.map Node.name (modOp self (PyOperand.tool t)) = Except.ok t.name ∧
    orOp self (PyOperand.other v)
      = Except.error "Cant stdout pipe Shell command into type other than another shell command" ∧
    matmulOp self (PyOperand.other v)
      = Except.error "Cant stderr pipe Shell command into type other than another shell command" ∧
    modOp self (PyOperand.other v)
      = Except.error "Cant stderr pipe Shell command into type other than another shell command" := by
  cases t with
  | mk tn ta tp tt th tco tce tca ts te =>
      simp [orOp, matmulOp, modOp, Node.setPipeSrc, Node.setPipeType,
        Node.pipe_in, Node.pipe_in_type, Node.name, Node.args, Except.map]

/-- Claim C6: `kill()` on a node whose process is running delivers
SIGTERM to that process by pid and raises nothing; on a node that is not
running (never started or already exited) it delivers no signal and
raises the RuntimeError naming the node's pid; and a running node always
has a process. -/
theorem C6_kill (n : ProcNode) :
    (∀ p, n.process = some p → runningQ n = true →
        killCall n = { signalsSent := [(p.pid, SIGTERM)], error := none }) ∧
    (runningQ n = false →
      (killCall n).signalsSent = [] ∧
      (killCall n).error
        = some ("Tried to kill process that doesnt exist with pid:(" ++ pidRepr n ++ ").")) ∧
    (runningQ n = true → n.process ≠ none) := by
  obtain ⟨proc⟩ := n
  refine ⟨?_, ?_, ?_⟩
  · intro p hp hr
    cases proc with
    | none => exact absurd hp (by simp)
    | some q =>
        have hq : q = p := by simpa using hp
        subst hq
        simp [killCall, hr]
  · intro hr
    simp [killCall, hr]
  · intro hr
    cases proc with
    | none => simp [runningQ] at hr
    | some q => simp

theorem C6_kill_witness :
    killCall ⟨some ⟨42, none⟩⟩ = { signalsSent := [(42, SIGTERM)], error := none } ∧
    (killCall ⟨some ⟨7, some 0⟩⟩).signalsSent = [] := by
  exact ⟨(C6_kill ⟨some ⟨42, none⟩⟩).1 ⟨42, none⟩ rfl (by decide),
    ((C6_kill ⟨some ⟨7, some 0⟩⟩).2.1 (by decide)).1⟩

/-- Claim C7: an iteration step signals termination exactly when the
stdout queue and the stderr queue are both empty at the check; otherwise
it pops the head of each non-empty queue (absent for an empty one) and
returns the pair. -/
theorem C7_iteration (q : IterQueues) :
    (nextStep q = none ↔ q.stdout_queue = [] ∧ q.stderr_queue = []) ∧
    (∀ x xs y ys, q.stdout_queue = x :: xs → q.stderr_queue = y :: ys →
        nextStep q = some ((some x, some y), ⟨xs, ys⟩)) ∧
    (∀ x xs, q.stdout_queue = x :: xs → q.stderr_queue = [] →
        nextStep q = some ((some x, none), ⟨xs, []⟩)) ∧
    (∀ y ys, q.stdout_queue = [] → q.stderr_queue = y :: ys →
        nextStep q = some ((none, some y), ⟨[], ys⟩)) := by
  obtain ⟨so, se⟩ := q
  cases so <;> cases se <;>
    simp [nextStep, next_stream_line]
  tauto

theorem C7_iteration_witness :
    nextStep ⟨[[1]], [[2]]⟩ = some ((some [1], some [2]), ⟨[], []⟩) ∧
    nextStep ⟨[], []⟩ = none := by
  exact ⟨(C7_iteration ⟨[[1]], [[2]]⟩).2.1 [1] [] [2] [] rfl rfl,
    (C7_iteration ⟨[], []⟩).1.mpr ⟨rfl, rfl⟩⟩

/-- Claim C8: `return_code` is absent while `running` is true and before
any process has been spawned, and once the process has exited (its poll
result is an exit status) `return_code` is exactly that status. -/
theorem C8_return_code (n : ProcNode) :
    (runningQ n = true → return_code n = none) ∧
    (n.process = none → return_code n = none) ∧
    (∀ p c, n.process = some p → p.pollResult = some c → return_code n = some c) := by
  obtain ⟨proc⟩ := n
  refine ⟨?_, ?_, ?_⟩
  · intro hr
    simp [return_code, hr]
  · intro hp
    subst hp
    simp [return_code]
  · intro p c hp hc
    cases proc with
    | none => exact absurd hp (by simp)
    | some q =>
        have hq : q = p := by simpa using hp
        subst hq
        simp [return_code, runningQ, hc]

theorem C8_return_code_witness :
    return_code ⟨some ⟨5, none⟩⟩ = none ∧
    return_code ⟨none⟩ = none ∧
    return_code ⟨some ⟨5, some 3⟩⟩ = some 3 := by
  exact ⟨(C8_return_code ⟨some ⟨5, none⟩⟩).1 (by decide),
    (C8_return_code ⟨none⟩).2.1 rfl,
    (C8_return_code ⟨some ⟨5, some 3⟩⟩).2.2 ⟨5, some 3⟩ 3 rfl rfl⟩

/-- Claim C9 counterexample: the argument "a " (a trailing space)
contains a space, yet the shell interprets it as the single word "a",
not as multiple words: the shell collapses blank runs and drops
leading/trailing blanks, so in the joined command "c a " the argument
contributes exactly one word. -/
theorem C9_space_arg_single_word :
    (' ' ∈ ['a', ' ']) ∧
    shellWords (joinSpaces (callArgs ['c'] [['a', ' ']])) = [['c'], ['a']] ∧
    shellWords ['a', ' '] = [['a']] ∧
    ¬ 2 ≤ (shellWords ['a', ' ']).length := by decide

/-- Claim C9 (amended): the command handed to the process spawner is the
single string joining the command name and the coerced arguments with
single spaces under `shell=True`, with no quoting or escaping: the shell
words of the joined command are exactly the concatenation of each
token's own words, so argument boundaries are not preserved, and any
argument containing a space with a non-blank character on each side of
it is interpreted as at least two shell words (an argument whose spaces
are only leading, trailing, or inside a blank run may collapse to a
single word or none). -/
theorem C9_amended_shell_words (name : List Char) (args : List (List Char)) :
    popenShellFlag = true ∧
    shellWords (joinSpaces (callArgs name args))
      = ((callArgs name args).map shellWords).flatten ∧
    (∀ a ∈ args, ∀ xs ys, a = xs ++ ' ' :: ys →
        (∃ c ∈ xs, c ≠ ' ') → (∃ c ∈ ys, c ≠ ' ') →
        2 ≤ (shellWords a).length) := by
  refine ⟨rfl, shellWords_joinSpaces (callArgs name args), ?_⟩
  intro a _ xs ys ha hx hy
  subst ha
  exact two_le_shellWords_of_split xs ys hx hy

theorem C9_amended_shell_words_witness :
    shellWords (joinSpaces (callArgs ['c'] [['a', ' ', 'b']]))
      = ((callArgs ['c'] [['a', ' ', 'b']]).map shellWords).flatten ∧
    2 ≤ (shellWords ['a', ' ', 'b']).length := by
  exact ⟨(C9_amended_shell_words ['c'] [['a', ' ', 'b']]).2.1,
    (C9_amended_shell_words ['c'] [['a', ' ', 'b']]).2.2 ['a', ' ', 'b'] (by decide)
      ['a'] ['b'] rfl ⟨'a', by decide, by decide⟩ ⟨'b', by decide, by decide⟩⟩

/-- Claim C10: the stdout pipe operator sets the right-hand node's pipe
source but leaves its selector unchanged, so a node whose selector was
previously set to ERR (or ALL) by an earlier composition resolves its
stdin from the new upstream's stderr (or combined) property rather than
from its stdout: composing with the stdout operator yields exactly the
right node with only its pipe source replaced, and running that node
writes the splitlines of the upstream's stderr (resp. combined) buffer. -/
theorem C10_or_preserves_selector
    (unm : String) (uags : List String) (upin : PipeSrc) (upt : PipeType)
    (o e a : List Nat) (usch : List (StreamTag × Chunk)) (uec : Int)
    (bnm : String) (bags : List String) (bsch : List (StreamTag × Chunk)) (bec : Int) :
    orOp (Node.mk unm uags upin upt true (some o) (some e) (some a) usch uec)
        (PyOperand.tool (Node.mk bnm bags PipeSrc.noneSrc PipeType.ERR
          false none none none bsch bec))
      = Except.ok (Node.mk bnm bags
          (PipeSrc.toolSrc (Node.mk unm uags upin upt true (some o) (some e) (some a) usch uec))
          PipeType.ERR false none none none bsch bec) ∧
    (runNode (Node.mk bnm bags
        (PipeSrc.toolSrc (Node.mk unm uags upin upt true (some o) (some e) (some a) usch uec))
        PipeType.ERR false none none none bsch bec)).stdinWrites = bsplitlines e ∧
    (runNode (Node.mk bnm bags
        (PipeSrc.toolSrc (Node.mk unm uags upin upt true (some o) (some e) (some a) usch uec))
        PipeType.ALL false none none none bsch bec)).stdinWrites = bsplitlines a := by
  refine ⟨rfl, ?_, ?_⟩ <;>
    simp [runNode, Node.has_run, Node.cap_stdout, Node.cap_stderr, Node.cap_all, selectProp]

end Shellify
